import Mathlib

/-!
# Verification of `gnss_tools` core logic

Shallow embedding of the validation, decimation and driver-control-flow logic
of the `gnss_tools` repository (files `cli_utils.py`, `skyplot.py`,
`groundtrack.py`, `plot_groundtrack.py`, `bin/groundtrack.py`,
`plot_utils.py`), together with proofs of the specified properties.

Numeric values are modelled as exact rationals (`ℚ`); Python floats are
IEEE doubles, but every comparison and branch in the modelled code is
exact-value arithmetic on small decimal literals, so `ℚ` is a faithful
carrier for the branching behaviour under scrutiny.  Python strings are
modelled as `List Char` (restricted to ASCII, which covers every token the
modelled validators distinguish).  Exceptions are modelled with `Except`,
one error constructor per `raise` site.
-/

namespace GnssTools

/-! ## Observer position validation

Embedding of `validate_observer_position` (src/gnss_tools/cli_utils.py
lines 26-43; an identical copy sits in skyplot.py lines 109-126).  The
source computes `np.linalg.norm(pos) < 6.3e6`; since both sides are
nonnegative, `‖p‖ < t  ↔  ‖p‖² < t²`, and we embed the comparison on the
squared norm so that everything stays inside `ℚ`. -/

/-- Squared Euclidean norm of a 3-vector, the exact square of the
`np.linalg.norm(pos)` value computed by the source. -/
def normSq (p : ℚ × ℚ × ℚ) : ℚ :=
  p.1 * p.1 + p.2.1 * p.2.1 + p.2.2 * p.2.2

/-- The classification threshold `6.3e6` used by `validate_observer_position`. -/
def GEO_ECEF_THRESHOLD : ℚ := 6300000

/-- The per-component ECEF bound `6.4e6` used by `validate_observer_position`. -/
def ECEF_COMPONENT_LIMIT : ℚ := 6400000

/-- Error kinds of observer validation; one constructor per `raise` site of
`validate_observer_position` (the spec names them `GeographicRangeError` and
`EcefRangeError`). -/
inductive ObsError where
  | geographicRange
  | ecefRange
  deriving DecidableEq, Repr

/-- Embedding of `validate_observer_position(pos)` from cli_utils.py lines
26-43: if the Euclidean norm of `pos` is below `6.3e6` the vector is checked
against the geographic ranges `-180 ≤ pos[0] ≤ 360`, `-90 ≤ pos[1] ≤ 90`,
`0 ≤ pos[2] < 9000`; otherwise each component must satisfy `|c| < 6.4e6`.
On success the function returns `pos` unchanged; each failing branch raises,
modelled by the corresponding `ObsError` constructor.  The norm comparison
is embedded as the equivalent squared-norm comparison. -/
def validate_observer_position (p : ℚ × ℚ × ℚ) : Except ObsError (ℚ × ℚ × ℚ) :=
  if normSq p < GEO_ECEF_THRESHOLD * GEO_ECEF_THRESHOLD then
    if -180 ≤ p.1 ∧ p.1 ≤ 360 ∧ -90 ≤ p.2.1 ∧ p.2.1 ≤ 90 ∧ 0 ≤ p.2.2 ∧ p.2.2 < 9000 then
      .ok p
    else
      .error .geographicRange
  else
    if |p.1| < ECEF_COMPONENT_LIMIT ∧ |p.2.1| < ECEF_COMPONENT_LIMIT ∧
        |p.2.2| < ECEF_COMPONENT_LIMIT then
      .ok p
    else
      .error .ecefRange

/-! ## Observer conversion at the skyplot call site

Embedding of skyplot.py `main` lines 176-179:

    pos = args.observer
    if np.linalg.norm(pos) < 6.3e7:  # position is given in geographic coordinates
        pos[:-1] = np.radians(pos[:-1])
        pos = list(tools.tool_geocart_GRS80(*pos))

Note the threshold here is `6.3e7`, one order of magnitude larger than the
`6.3e6` used by `validate_observer_position`. -/

/-- The double-precision value of π used by `np.radians`, taken as the exact
rational with the same decimal digits; the claims proved below depend only on
which components are rescaled, never on the constant's exact value. -/
def PI_DOUBLE : ℚ := 3.141592653589793

/-- Degrees-to-radians conversion `np.radians(x) = x * π / 180` (with
`PI_DOUBLE` standing in for π; floating-point rounding is out of scope). -/
def deg2rad (x : ℚ) : ℚ := x * PI_DOUBLE / 180

/-- The threshold `6.3e7` used at the skyplot.py call site (line 177) to
decide whether the observer vector is geographic. -/
def SKYPLOT_CONVERT_THRESHOLD : ℚ := 63000000

/-- Embedding of the observer preparation step of skyplot.py `main`
(lines 176-179): returns the vector handed on to the transform collaborator,
paired with a flag recording whether the geographic branch was taken (in
which branch the first two components are converted to radians and
`tools.tool_geocart_GRS80` is called; otherwise the vector passes through
unchanged). -/
def skyplotObserverPrep (p : ℚ × ℚ × ℚ) : (ℚ × ℚ × ℚ) × Bool :=
  if normSq p < SKYPLOT_CONVERT_THRESHOLD * SKYPLOT_CONVERT_THRESHOLD then
    ((deg2rad p.1, deg2rad p.2.1, p.2.2), true)
  else
    (p, false)

/-! ## Series decimation

Embedding of the label-decimation comprehension that appears verbatim (with
stride `LABELS_INTERVAL` = 10 in skyplot.py lines 55-57, and = 50 in
groundtrack.py lines 57-59, plot_groundtrack.py lines 94-96 and
plot_utils.py lines 61-63):

    labels = [x for i, x in enumerate(labels) if i % LABELS_INTERVAL == 0]
-/

/-- Embedding of `[x for i, x in enumerate(l) if i % n == 0]`: keep exactly
the elements whose zero-based index is a multiple of the stride `n`. -/
def decimate {α : Type} (n : ℕ) (l : List α) : List α :=
  (l.enum.filter (fun ix => ix.1 % n == 0)).map Prod.snd

/-- Generalisation of `decimate` to an `enumerate` that starts counting at
`s`, used only to reason about `decimate` by recursion. -/
def decimateFrom {α : Type} (n s : ℕ) (l : List α) : List α :=
  ((l.enumFrom s).filter (fun ix => ix.1 % n == 0)).map Prod.snd

theorem decimate_eq_decimateFrom {α : Type} (n : ℕ) (l : List α) :
    decimate n l = decimateFrom n 0 l := rfl

theorem decimateFrom_nil {α : Type} (n s : ℕ) :
    decimateFrom n s ([] : List α) = [] := rfl

theorem decimateFrom_cons {α : Type} (n s : ℕ) (x : α) (l : List α) :
    decimateFrom n s (x :: l) =
      (if s % n = 0 then [x] else []) ++ decimateFrom n (s + 1) l := by
  unfold decimateFrom
  rw [List.enumFrom_cons, List.filter_cons]
  by_cases h : s % n = 0 <;> simp [h]

theorem decimateFrom_shift {α : Type} (n : ℕ) (l : List α) :
    ∀ s : ℕ, decimateFrom n (s + n) l = decimateFrom n s l := by
  induction l with
  | nil => intro s; rfl
  | cons x xs ih =>
    intro s
    rw [decimateFrom_cons, decimateFrom_cons, Nat.add_mod_right]
    have h1 : s + n + 1 = (s + 1) + n := by omega
    rw [h1, ih]

theorem decimateFrom_eq_decimate_drop {α : Type} (n : ℕ) (hn : 0 < n) :
    ∀ (l : List α) (s : ℕ), 0 < s → s ≤ n →
      decimateFrom n s l = decimate n (l.drop (n - s)) := by
  intro l
  induction l with
  | nil => intro s _ _; simp [decimateFrom_nil, decimate]
  | cons x xs ih =>
    intro s hs hsn
    rcases eq_or_lt_of_le hsn with heq | hlt
    · subst heq
      rw [decimateFrom_cons, Nat.mod_self]
      have h1 : s + 1 = 1 + s := by omega
      rw [if_pos rfl, h1, decimateFrom_shift]
      have h0 : s - s = 0 := by omega
      rw [h0, List.drop_zero, decimate_eq_decimateFrom, decimateFrom_cons,
        Nat.zero_mod, if_pos rfl]
    · have hmod : s % n = s := Nat.mod_eq_of_lt hlt
      have hne : ¬ s % n = 0 := by omega
      rw [decimateFrom_cons, if_neg hne, List.nil_append,
        ih (s + 1) (by omega) (by omega)]
      congr 1
      have h2 : n - s = (n - s - 1) + 1 := by omega
      rw [h2, List.drop_succ_cons]
      congr 1

/-- Recursion equation for `decimate` at positive stride: the head is always
kept and the next `n - 1` elements are skipped. -/
theorem decimate_cons {α : Type} (n : ℕ) (hn : 0 < n) (x : α) (l : List α) :
    decimate n (x :: l) = x :: decimate n (l.drop (n - 1)) := by
  rw [decimate_eq_decimateFrom, decimateFrom_cons, Nat.zero_mod, if_pos rfl,
    decimateFrom_eq_decimate_drop n hn l 1 Nat.one_pos hn]
  rfl

theorem decimate_length_aux {α : Type} (n : ℕ) (hn : 0 < n) :
    ∀ (m : ℕ) (l : List α), l.length ≤ m →
      (decimate n l).length = (l.length + (n - 1)) / n := by
  intro m
  induction m with
  | zero =>
    intro l hl
    have : l = [] := List.eq_nil_of_length_eq_zero (Nat.le_zero.mp hl)
    subst this
    simp [decimate, Nat.div_eq_of_lt (by omega : n - 1 < n)]
  | succ m ih =>
    intro l hl
    match l with
    | [] => simp [decimate, Nat.div_eq_of_lt (by omega : n - 1 < n)]
    | x :: xs =>
      rw [decimate_cons n hn, List.length_cons, List.length_cons]
      have hxs : xs.length ≤ m := by simpa using hl
      have h1 : (xs.drop (n - 1)).length ≤ m := by
        rw [List.length_drop]; omega
      rw [ih _ h1, List.length_drop]
      rcases le_or_lt (n - 1) xs.length with hge | hlt
      · rw [Nat.sub_add_cancel hge]
        have h2 : xs.length + 1 + (n - 1) = xs.length + n := by omega
        rw [h2, Nat.add_div_right _ hn]
      · have h3 : xs.length - (n - 1) = 0 := by omega
        have h4 : xs.length + 1 + (n - 1) = xs.length + n := by omega
        rw [h3, Nat.zero_add, Nat.div_eq_of_lt (by omega : n - 1 < n), h4,
          Nat.add_div_right _ hn, Nat.div_eq_of_lt (by omega : xs.length < n)]

/-- Output length of the decimator is `⌈len / n⌉`, written in `ℕ` as
`(len + (n-1)) / n`. -/
theorem decimate_length {α : Type} (n : ℕ) (hn : 0 < n) (l : List α) :
    (decimate n l).length = (l.length + (n - 1)) / n :=
  decimate_length_aux n hn l.length l le_rfl

theorem decimate_getElem?_aux {α : Type} (n : ℕ) (hn : 0 < n) :
    ∀ (m : ℕ) (l : List α), l.length ≤ m →
      ∀ k : ℕ, (decimate n l)[k]? = l[k * n]? := by
  intro m
  induction m with
  | zero =>
    intro l hl k
    have : l = [] := List.eq_nil_of_length_eq_zero (Nat.le_zero.mp hl)
    subst this
    simp [decimate]
  | succ m ih =>
    intro l hl k
    match l with
    | [] => simp [decimate]
    | x :: xs =>
      rw [decimate_cons n hn]
      match k with
      | 0 => simp
      | k + 1 =>
        have h1 : (xs.drop (n - 1)).length ≤ m := by
          rw [List.length_drop]
          have hxs : xs.length ≤ m := by simpa using hl
          omega
        rw [List.getElem?_cons_succ, ih _ h1 k, List.getElem?_drop]
        have h2 : (k + 1) * n = ((n - 1) + k * n) + 1 := by
          have : (k + 1) * n = k * n + n := by ring
          omega
        rw [h2, List.getElem?_cons_succ]

/-- The `k`-th kept element of the decimated series is the element of the
input at original index `k * n` (both sides `none` past the end). -/
theorem decimate_getElem? {α : Type} (n : ℕ) (hn : 0 < n) (l : List α)
    (k : ℕ) : (decimate n l)[k]? = l[k * n]? :=
  decimate_getElem?_aux n hn l.length l le_rfl k

/-! ## Satellite identifier validation

Embedding of `validate_sv_id` (cli_utils.py lines 11-23; identical copies in
skyplot.py, groundtrack.py and plot_groundtrack.py):

    if not sv_id.startswith(('G', 'R', 'E')):
        raise argparse.ArgumentTypeError("Invalid SV constellation.")
    try:
        id_ = int(sv_id[1:])
    except ValueError:
        raise argparse.ArgumentTypeError("Invalid SV ID.")
    return sv_id

Tokens are modelled as `List Char`.  `int(s)` is CPython's base-10 integer
literal parser: optional surrounding whitespace, an optional `+`/`-` sign,
then a nonempty digit run in which single underscores may separate digits.
We model it for ASCII input (`isPySpace` covers the six ASCII whitespace
characters; Unicode digits and spaces never occur in the tokens this CLI
distinguishes). -/

/-- ASCII whitespace accepted (and stripped) by Python `int`. -/
def isPySpace (c : Char) : Bool :=
  c = ' ' ∨ c = '\t' ∨ c = '\n' ∨ c = '\r' ∨ c = '\x0b' ∨ c = '\x0c'

/-- Value of a decimal digit character; `10` for every non-digit, so that
`digitVal10 c < 10` is exactly "`c` is an ASCII digit". -/
def digitVal10 (c : Char) : ℕ :=
  if c = '0' then 0 else if c = '1' then 1 else if c = '2' then 2
  else if c = '3' then 3 else if c = '4' then 4 else if c = '5' then 5
  else if c = '6' then 6 else if c = '7' then 7 else if c = '8' then 8
  else if c = '9' then 9 else 10

/-- The digit test used by Python `int` on ASCII input. -/
def isDig (c : Char) : Bool := digitVal10 c < 10

/-- Decimal digit character of a value below 10. -/
def digitChar10 (d : ℕ) : Char :=
  if d = 0 then '0' else if d = 1 then '1' else if d = 2 then '2'
  else if d = 3 then '3' else if d = 4 then '4' else if d = 5 then '5'
  else if d = 6 then '6' else if d = 7 then '7' else if d = 8 then '8'
  else '9'

/-- Digit-run parser of Python `int` after the first digit has been
consumed into `acc`: digits accumulate base-10; a single underscore is
allowed between two digits; anything else fails (`ValueError`). -/
def pyDigits (acc : ℕ) : List Char → Option ℕ
  | [] => some acc
  | c :: rest =>
    if isDig c then pyDigits (acc * 10 + digitVal10 c) rest
    else if c = '_' then
      match rest with
      | [] => none
      | d :: rest2 =>
        if isDig d then pyDigits (acc * 10 + digitVal10 d) rest2 else none
    else none

/-- Digit-run parser of Python `int`: the run must start with a digit. -/
def pyDigitsStart : List Char → Option ℕ
  | [] => none
  | c :: rest => if isDig c then pyDigits (digitVal10 c) rest else none

/-- Leading- and trailing-whitespace stripping performed by Python `int`. -/
def stripBoth (cs : List Char) : List Char :=
  ((cs.dropWhile isPySpace).reverse.dropWhile isPySpace).reverse

/-- Embedding of CPython `int(s)` for base 10 on ASCII strings: strip
whitespace, read an optional sign, then a digit run (underscore separators
allowed); `none` models `ValueError`. -/
def pyInt (cs : List Char) : Option ℤ :=
  match stripBoth cs with
  | [] => none
  | c :: rest =>
    if c = '+' then (pyDigitsStart rest).map (fun n => (n : ℤ))
    else if c = '-' then (pyDigitsStart rest).map (fun n => -(n : ℤ))
    else (pyDigitsStart (c :: rest)).map (fun n => (n : ℤ))

/-- Error kinds of `validate_sv_id`; one constructor per `raise` site (the
spec names them `InvalidConstellation` and `InvalidSatelliteNumber`). -/
inductive SvError where
  | invalidConstellation
  | invalidSatelliteNumber
  deriving DecidableEq, Repr

/-- Embedding of `sv_id.startswith(('G', 'R', 'E'))`: true exactly when the
token is nonempty and its first character is `G`, `R` or `E`. -/
def startsGRE (cs : List Char) : Bool :=
  match cs with
  | [] => false
  | c :: _ => c = 'G' || c = 'R' || c = 'E'

/-- Embedding of `validate_sv_id(sv_id)` from cli_utils.py lines 11-23:
reject unless the first character is a supported constellation code, then
reject unless `int(sv_id[1:])` parses; on success return the token
unchanged. -/
def validate_sv_id (cs : List Char) : Except SvError (List Char) :=
  if startsGRE cs then
    match pyInt (cs.drop 1) with
    | some _ => .ok cs
    | none => .error .invalidSatelliteNumber
  else
    .error .invalidConstellation

/-- Embedding of the identifier parse performed by the drivers (skyplot.py
line 190, groundtrack.py line 155): `(sv_id[0], int(sv_id[1:]))`; `none`
models the uncaught exception on an empty or non-numeric token (which cannot
occur after validation). -/
def parseSvToken (cs : List Char) : Option (Char × ℤ) :=
  match cs with
  | [] => none
  | c :: rest => (pyInt rest).map (fun n => (c, n))

/-- Decimal rendering of a natural number (empty for `0`, as only the
zero-padded rendering below is ever shown). -/
def natDec (n : ℕ) : List Char :=
  ((Nat.digits 10 n).map digitChar10).reverse

/-- Python `f'{n:02d}'` for a nonnegative value: decimal digits left-padded
with zeros to width 2. -/
def pyFmt02d (n : ℕ) : List Char :=
  List.replicate (2 - (natDec n).length) '0' ++ natDec n

/-- Python `f'{n:02d}'` on an arbitrary integer: for negatives the sign
occupies one of the two positions. -/
def pyFmt02dInt (n : ℤ) : List Char :=
  if n < 0 then
    '-' :: (List.replicate (1 - (natDec n.natAbs).length) '0' ++ natDec n.natAbs)
  else
    pyFmt02d n.toNat

/-- Embedding of the display form `f'{sv_id[0]}{sv_id[1]:02d}'` used at the
render calls (skyplot.py line 210, groundtrack.py line 175). -/
def formatSv (p : Char × ℤ) : List Char :=
  p.1 :: pyFmt02dInt p.2

/-- Base-10 accumulation step of the digit parser. -/
def digitStep (a : ℕ) (c : Char) : ℕ := a * 10 + digitVal10 c

/-- Numeric value of a digit string, as accumulated by `pyDigits`. -/
def valDigits (ds : List Char) : ℕ := ds.foldl digitStep 0

/-! ### Arithmetic facts about the digit machinery -/

theorem isDig_cases {c : Char} (h : isDig c = true) :
    c = '0' ∨ c = '1' ∨ c = '2' ∨ c = '3' ∨ c = '4' ∨ c = '5' ∨ c = '6' ∨
      c = '7' ∨ c = '8' ∨ c = '9' := by
  unfold isDig digitVal10 at h
  split_ifs at h with h0 h1 h2 h3 h4 h5 h6 h7 h8 h9
  · exact Or.inl h0
  · exact Or.inr (Or.inl h1)
  · exact Or.inr (Or.inr (Or.inl h2))
  · exact Or.inr (Or.inr (Or.inr (Or.inl h3)))
  · exact Or.inr (Or.inr (Or.inr (Or.inr (Or.inl h4))))
  · exact Or.inr (Or.inr (Or.inr (Or.inr (Or.inr (Or.inl h5)))))
  · exact Or.inr (Or.inr (Or.inr (Or.inr (Or.inr (Or.inr (Or.inl h6))))))
  · exact Or.inr (Or.inr (Or.inr (Or.inr (Or.inr (Or.inr (Or.inr (Or.inl h7)))))))
  · exact Or.inr (Or.inr (Or.inr (Or.inr (Or.inr (Or.inr (Or.inr (Or.inr (Or.inl h8))))))))
  · exact Or.inr (Or.inr (Or.inr (Or.inr (Or.inr (Or.inr (Or.inr (Or.inr (Or.inr h9))))))))
  · exact absurd h (by decide)

theorem digitChar10_digitVal10 {c : Char} (h : isDig c = true) :
    digitChar10 (digitVal10 c) = c := by
  rcases isDig_cases h with h | h | h | h | h | h | h | h | h | h <;> subst h <;> decide

theorem digitVal10_lt {c : Char} (h : isDig c = true) : digitVal10 c < 10 := by
  simpa [isDig] using h

theorem digitVal10_ne_zero {c : Char} (h : isDig c = true) (hc : c ≠ '0') :
    digitVal10 c ≠ 0 := by
  rcases isDig_cases h with h | h | h | h | h | h | h | h | h | h <;>
    subst h <;> first | exact absurd rfl hc | decide

theorem isDig_not_space {c : Char} (h : isDig c = true) : isPySpace c = false := by
  rcases isDig_cases h with h | h | h | h | h | h | h | h | h | h <;> subst h <;> decide

theorem isDig_ne_plus {c : Char} (h : isDig c = true) : c ≠ '+' := by
  rcases isDig_cases h with h | h | h | h | h | h | h | h | h | h <;> subst h <;> decide

theorem isDig_ne_minus {c : Char} (h : isDig c = true) : c ≠ '-' := by
  rcases isDig_cases h with h | h | h | h | h | h | h | h | h | h <;> subst h <;> decide

theorem dropWhile_eq_self_of_all {p : Char → Bool} {l : List Char}
    (h : ∀ c ∈ l, p c = false) : l.dropWhile p = l := by
  cases l with
  | nil => rfl
  | cons c t => rw [List.dropWhile_cons, h c (List.mem_cons_self _ _)]; simp

theorem stripBoth_eq_self {l : List Char} (h : ∀ c ∈ l, isPySpace c = false) :
    stripBoth l = l := by
  unfold stripBoth
  rw [dropWhile_eq_self_of_all h,
    dropWhile_eq_self_of_all (fun c hc => h c (List.mem_reverse.mp hc)),
    List.reverse_reverse]

theorem pyDigits_cons (acc : ℕ) (c : Char) (rest : List Char) :
    pyDigits acc (c :: rest) =
      if isDig c then pyDigits (acc * 10 + digitVal10 c) rest
      else if c = '_' then
        match rest with
        | [] => none
        | d :: rest2 =>
          if isDig d then pyDigits (acc * 10 + digitVal10 d) rest2 else none
      else none := by
  rw [pyDigits.eq_def]

theorem pyDigits_all_digits :
    ∀ (ds : List Char), (∀ c ∈ ds, isDig c = true) →
      ∀ acc : ℕ, pyDigits acc ds = some (ds.foldl digitStep acc) := by
  intro ds
  induction ds with
  | nil => intro _ acc; rfl
  | cons c t ih =>
    intro h acc
    have hc : isDig c = true := h c (List.mem_cons_self _ _)
    rw [pyDigits_cons, if_pos hc, List.foldl_cons]
    exact ih (fun x hx => h x (List.mem_cons_of_mem _ hx)) _

theorem foldl_digitStep_eq :
    ∀ (ds : List Char) (acc : ℕ),
      ds.foldl digitStep acc =
        acc * 10 ^ ds.length + Nat.ofDigits 10 ((ds.map digitVal10).reverse) := by
  intro ds
  induction ds with
  | nil => intro acc; simp [Nat.ofDigits]
  | cons c t ih =>
    intro acc
    rw [List.foldl_cons, ih, List.map_cons, List.reverse_cons, Nat.ofDigits_append]
    simp only [List.length_reverse, List.length_map, List.length_cons,
      Nat.ofDigits_singleton, digitStep]
    ring

theorem valDigits_eq_ofDigits (ds : List Char) :
    valDigits ds = Nat.ofDigits 10 ((ds.map digitVal10).reverse) := by
  rw [valDigits, foldl_digitStep_eq]
  simp

theorem natDec_valDigits (d0 : Char) (tl : List Char)
    (hds : ∀ c ∈ d0 :: tl, isDig c = true) (hhd : d0 ≠ '0') :
    natDec (valDigits (d0 :: tl)) = d0 :: tl := by
  have w1 : ∀ x ∈ ((d0 :: tl).map digitVal10).reverse, x < 10 := by
    intro x hx
    rcases List.mem_map.mp (List.mem_reverse.mp hx) with ⟨c, hc, rfl⟩
    exact digitVal10_lt (hds c hc)
  have w2 : ∀ hx : ((d0 :: tl).map digitVal10).reverse ≠ [],
      (((d0 :: tl).map digitVal10).reverse).getLast hx ≠ 0 := by
    intro hx
    have h1 : (((d0 :: tl).map digitVal10).reverse).getLast hx = digitVal10 d0 := by
      rw [← Option.some_inj, ← List.getLast?_eq_getLast _ hx, List.getLast?_reverse]
      simp
    rw [h1]
    exact digitVal10_ne_zero (hds d0 (List.mem_cons_self _ _)) hhd
  unfold natDec
  rw [valDigits_eq_ofDigits, Nat.digits_ofDigits 10 (by norm_num) _ w1 w2,
    List.map_reverse, List.reverse_reverse, List.map_map]
  have hmap : List.map (digitChar10 ∘ digitVal10) (d0 :: tl) =
      List.map id (d0 :: tl) :=
    List.map_congr_left (fun c hc => digitChar10_digitVal10 (hds c hc))
  rw [hmap, List.map_id]

theorem pyInt_all_digits (d0 : Char) (tl : List Char)
    (hds : ∀ c ∈ d0 :: tl, isDig c = true) :
    pyInt (d0 :: tl) = some ((valDigits (d0 :: tl) : ℕ) : ℤ) := by
  have hstrip : stripBoth (d0 :: tl) = d0 :: tl :=
    stripBoth_eq_self (fun c hc => isDig_not_space (hds c hc))
  have h0 : isDig d0 = true := hds d0 (List.mem_cons_self _ _)
  have hval : valDigits (d0 :: tl) = List.foldl digitStep (digitVal10 d0) tl := by
    simp [valDigits, List.foldl_cons, digitStep]
  have hstart : pyDigitsStart (d0 :: tl) =
      if isDig d0 then pyDigits (digitVal10 d0) tl else none := rfl
  have hstep : pyInt (d0 :: tl) =
      (pyDigitsStart (d0 :: tl)).map (fun n => (n : ℤ)) := by
    unfold pyInt
    rw [hstrip]
    simp only [if_neg (isDig_ne_plus h0), if_neg (isDig_ne_minus h0)]
  rw [hstep, hstart, if_pos h0, pyDigits_all_digits tl
    (fun c hc => hds c (List.mem_cons_of_mem _ hc)), hval]
  rfl

/-! ## Driver control flow

Embeddings of the `main` functions of skyplot.py (lines 171-210),
groundtrack.py (lines 142-175), bin/groundtrack.py (lines 51-84) and
plot_groundtrack.py (lines 147-176).  The external collaborators are kept
abstract in an environment record: `loadFailure` is the truthiness of the
value returned by `orbit.loadSp3`, `listSat` is `orbit.ListSat`, and
`rows key` is `sp3[1]`, the sample count `orbit.getSp3(*key)` reports for a
satellite key.  Each run is summarised by the integer handed to `sys.exit`
(0 for a normal return) and the ordered list of collaborator calls made
(`obsT` = `tools.tool_geocart_GRS80` on the observer, `seriesT` =
`tools.tool_az_ele_h` / `tools.toolCartGeoGRS80` on the position series,
`render` = the plotting call).  A result of `none` models an uncaught
exception (e.g. `IndexError` on an empty satellite list), which none of the
verified scenarios reach. -/

/-- Observable collaborator calls of a driver run. -/
inductive Ev where
  | obsT
  | seriesT
  | render
  deriving DecidableEq, Repr

/-- Abstract state of the orbit-file collaborator. -/
structure OrbitEnv where
  loadFailure : Bool
  listSat : List (List Char)
  rows : Char × ℤ → ℕ

/-- Embedding of the satellite-key resolution shared by all four drivers:

    try:
        sv_id = (args.sv_id[0], int(args.sv_id[1:]))
    except TypeError:
        sv_id = (orbit.ListSat[0][0], int(orbit.ListSat[0][1:]))

`none` models an uncaught exception (`IndexError` on an empty token or an
empty `ListSat`, or `ValueError` from `int`, none of which the `except
TypeError` arm catches). -/
def resolveSv (svId : Option (List Char)) (listSat : List (List Char)) :
    Option (Char × ℤ) :=
  match svId with
  | some [] => none
  | some (c :: rest) => (pyInt rest).map (fun n => (c, n))
  | none =>
    match listSat with
    | [] => none
    | [] :: _ => none
    | (c :: rest) :: _ => (pyInt rest).map (fun n => (c, n))

/-- Events produced by the observer-preparation step of skyplot.py `main`
(lines 176-179), which runs before the orbit file is even loaded: in the
geographic branch (norm below `6.3e7`) `tools.tool_geocart_GRS80` is
called. -/
def obsPrepEvents (observer : ℚ × ℚ × ℚ) : List Ev :=
  if normSq observer < SKYPLOT_CONVERT_THRESHOLD * SKYPLOT_CONVERT_THRESHOLD then
    [Ev.obsT]
  else
    []

/-- Embedding of skyplot.py `main` (lines 171-210): observer preparation,
then `loadSp3` (exit `-99` on failure), satellite-key resolution, the
zero-sample check (exit `-98`), then the az/el series transform and the
render call. -/
def skyplotMain (env : OrbitEnv) (observer : ℚ × ℚ × ℚ)
    (svId : Option (List Char)) : Option (ℤ × List Ev) :=
  let evs := obsPrepEvents observer
  if env.loadFailure then some (-99, evs)
  else
    match resolveSv svId env.listSat with
    | none => none
    | some key =>
      if env.rows key = 0 then some (-98, evs)
      else some (0, evs ++ [Ev.seriesT, Ev.render])

/-- Embedding of groundtrack.py `main` (lines 142-175): `loadSp3` (exit
`-99` on failure), satellite-key resolution, the zero-sample check (exit
`-98`), then the geographic series transform and the render call. -/
def groundtrackMain (env : OrbitEnv) (svId : Option (List Char)) :
    Option (ℤ × List Ev) :=
  if env.loadFailure then some (-99, [])
  else
    match resolveSv svId env.listSat with
    | none => none
    | some key =>
      if env.rows key = 0 then some (-98, [])
      else some (0, [Ev.seriesT, Ev.render])

/-- Embedding of bin/groundtrack.py `main` (lines 51-84), a near-identical
copy of groundtrack.py `main` with the same exit codes and checks. -/
def binGroundtrackMain (env : OrbitEnv) (svId : Option (List Char)) :
    Option (ℤ × List Ev) :=
  if env.loadFailure then some (-99, [])
  else
    match resolveSv svId env.listSat with
    | none => none
    | some key =>
      if env.rows key = 0 then some (-98, [])
      else some (0, [Ev.seriesT, Ev.render])

/-- Embedding of plot_groundtrack.py `main` (lines 147-176): on load
failure it calls `sys.exit(-1)` (line 156), not `-99`, and it performs no
zero-sample check at all — after `getSp3` it proceeds straight to the
series transform and the render call. -/
def plotGroundtrackMain (env : OrbitEnv) (svId : Option (List Char)) :
    Option (ℤ × List Ev) :=
  if env.loadFailure then some (-1, [])
  else
    match resolveSv svId env.listSat with
    | none => none
    | some _ => some (0, [Ev.seriesT, Ev.render])

/-- Concrete collaborator state: the file loads, one satellite `G01` is
listed, but `getSp3` reports zero samples for every requested key. -/
def envMissingSat : OrbitEnv := ⟨false, [['G', '0', '1']], fun _ => 0⟩

/-- Concrete collaborator state: loading the orbit file fails. -/
def envLoadFail : OrbitEnv := ⟨true, [], fun _ => 0⟩

/-! ## Render functions

Embeddings of `sky_plot_pygmt` (skyplot.py lines 26-69, stride
`LABELS_INTERVAL = 10`) and `plot_track_pygmt` (plot_utils.py lines 28-75,
stride `LABELS_INTERVAL = 50`).  Both receive the coordinate pair as a
two-element Python list `[xs, ys]` shared with the caller; after plotting
the full series with `fig.plot` they rebind `labels` locally and assign the
decimated subsequences to elements 0 and 1 of that shared list, then call
`fig.text`.  The in-place mutation is modelled by returning the final value
of the shared coordinate pair; the call record keeps the series handed to
each plotting call (`fig.plot`/`fig.text` receive `np.degrees` of these
series — a fixed rescaling that does not change which samples are passed,
so the trace records the series themselves). -/

/-- Data handed to the two plotting calls, in call order, plus the final
(caller-visible) value of the mutable coordinate pair. -/
structure RenderOut where
  plotX : List ℚ
  plotY : List ℚ
  textX : List ℚ
  textY : List ℚ
  textLabels : List (List Char)
  finalCoords : List ℚ × List ℚ
  deriving DecidableEq, Repr

/-- Embedding of `sky_plot_pygmt(sv_id, az_el, labels, save)` from
skyplot.py lines 26-69: `fig.plot` receives the full series; then `labels`,
`az_el[0]`, `az_el[1]` are decimated at stride 10 and `fig.text` receives
the decimated series; the assignment to `az_el[0]`/`az_el[1]` mutates the
caller's list, modelled by `finalCoords`. -/
def sky_plot_pygmt (azEl : List ℚ × List ℚ) (labels : List (List Char)) :
    RenderOut :=
  let labels2 := decimate 10 labels
  let az2 := decimate 10 azEl.1
  let el2 := decimate 10 azEl.2
  ⟨azEl.1, azEl.2, az2, el2, labels2, (az2, el2)⟩

/-- Embedding of `plot_track_pygmt(sv_id, geo, labels, save)` from
plot_utils.py lines 28-75: identical shape with stride 50, mutating the
caller's `geo` list. -/
def plot_track_pygmt (geo : List ℚ × List ℚ) (labels : List (List Char)) :
    RenderOut :=
  let labels2 := decimate 50 labels
  let geo0 := decimate 50 geo.1
  let geo1 := decimate 50 geo.2
  ⟨geo.1, geo.2, geo0, geo1, labels2, (geo0, geo1)⟩

/-! ## Claim theorems -/

/-- C1: for every raw observer 3-vector whose Euclidean norm is less than
`6.3e6` (stated on the squared norm, which is equivalent for nonnegative
quantities), the resolver takes the geographic branch, validation succeeds
exactly when `-180 ≤ longitude ≤ 360`, `-90 ≤ latitude ≤ 90` and
`0 ≤ height < 9000`, and any violation fails with `GeographicRangeError`. -/
theorem c1_geographic_validation (p : ℚ × ℚ × ℚ)
    (h : normSq p < GEO_ECEF_THRESHOLD * GEO_ECEF_THRESHOLD) :
    (validate_observer_position p = .ok p ↔
      (-180 ≤ p.1 ∧ p.1 ≤ 360 ∧ -90 ≤ p.2.1 ∧ p.2.1 ≤ 90 ∧
        0 ≤ p.2.2 ∧ p.2.2 < 9000)) ∧
    (¬ (-180 ≤ p.1 ∧ p.1 ≤ 360 ∧ -90 ≤ p.2.1 ∧ p.2.1 ≤ 90 ∧
        0 ≤ p.2.2 ∧ p.2.2 < 9000) →
      validate_observer_position p = .error .geographicRange) := by
  unfold validate_observer_position
  rw [if_pos h]
  by_cases hr : (-180 ≤ p.1 ∧ p.1 ≤ 360 ∧ -90 ≤ p.2.1 ∧ p.2.1 ≤ 90 ∧
      0 ≤ p.2.2 ∧ p.2.2 < 9000)
  · rw [if_pos hr]
    exact ⟨⟨fun _ => hr, fun _ => rfl⟩, fun hc => absurd hr hc⟩
  · rw [if_neg hr]
    exact ⟨⟨fun hEq => Except.noConfusion hEq, fun hr2 => absurd hr2 hr⟩,
      fun _ => rfl⟩

/-- C1 witness: the default observer `(24, 38, 500)` has norm below `6.3e6`
and validates successfully. -/
theorem c1_geographic_validation_witness :
    normSq ((24 : ℚ), 38, 500) < GEO_ECEF_THRESHOLD * GEO_ECEF_THRESHOLD ∧
    validate_observer_position ((24 : ℚ), 38, 500) = .ok ((24 : ℚ), 38, 500) :=
  ⟨by norm_num [normSq, GEO_ECEF_THRESHOLD],
   (c1_geographic_validation ((24 : ℚ), 38, 500)
      (by norm_num [normSq, GEO_ECEF_THRESHOLD])).1.mpr (by norm_num)⟩

/-- C2: for every raw observer 3-vector whose Euclidean norm is not below
`6.3e6` (again stated on the squared norm; a vector of norm exactly `6.3e6`
lands on this side because the geographic test is strict), the resolver
takes the ECEF branch, validation succeeds exactly when every component has
absolute value strictly below `6.4e6`, and any violation fails with
`EcefRangeError`. -/
theorem c2_ecef_validation (p : ℚ × ℚ × ℚ)
    (h : ¬ normSq p < GEO_ECEF_THRESHOLD * GEO_ECEF_THRESHOLD) :
    (validate_observer_position p = .ok p ↔
      (|p.1| < ECEF_COMPONENT_LIMIT ∧ |p.2.1| < ECEF_COMPONENT_LIMIT ∧
        |p.2.2| < ECEF_COMPONENT_LIMIT)) ∧
    (¬ (|p.1| < ECEF_COMPONENT_LIMIT ∧ |p.2.1| < ECEF_COMPONENT_LIMIT ∧
        |p.2.2| < ECEF_COMPONENT_LIMIT) →
      validate_observer_position p = .error .ecefRange) := by
  unfold validate_observer_position
  rw [if_neg h]
  by_cases hr : (|p.1| < ECEF_COMPONENT_LIMIT ∧ |p.2.1| < ECEF_COMPONENT_LIMIT ∧
      |p.2.2| < ECEF_COMPONENT_LIMIT)
  · rw [if_pos hr]
    exact ⟨⟨fun _ => hr, fun _ => rfl⟩, fun hc => absurd hr hc⟩
  · rw [if_neg hr]
    exact ⟨⟨fun hEq => Except.noConfusion hEq, fun hr2 => absurd hr2 hr⟩,
      fun _ => rfl⟩

/-- C2 witness: `(7e6, 0, 0)` fails with `EcefRangeError`,
`(4e6, 4e6, 4e6)` passes, and the boundary vector `(6.3e6, 0, 0)` (norm
exactly `6.3e6`) is classified on the ECEF side and passes. -/
theorem c2_ecef_validation_witness :
    validate_observer_position ((7000000 : ℚ), 0, 0) = .error .ecefRange ∧
    validate_observer_position ((4000000 : ℚ), 4000000, 4000000) =
      .ok ((4000000 : ℚ), 4000000, 4000000) ∧
    validate_observer_position ((6300000 : ℚ), 0, 0) =
      .ok ((6300000 : ℚ), 0, 0) :=
  ⟨(c2_ecef_validation ((7000000 : ℚ), 0, 0)
      (by norm_num [normSq, GEO_ECEF_THRESHOLD])).2
      (by norm_num [ECEF_COMPONENT_LIMIT]),
   (c2_ecef_validation ((4000000 : ℚ), 4000000, 4000000)
      (by norm_num [normSq, GEO_ECEF_THRESHOLD])).1.mpr
      (by norm_num [ECEF_COMPONENT_LIMIT]),
   (c2_ecef_validation ((6300000 : ℚ), 0, 0)
      (by norm_num [normSq, GEO_ECEF_THRESHOLD])).1.mpr
      (by norm_num [ECEF_COMPONENT_LIMIT])⟩

/-- C3 counterexample: the claim asserts that the validation threshold
`6.3e6` is also the threshold at the conversion point and that an
ECEF-classified vector is passed through unchanged; the vector
`(4e6, 4e6, 4e6)` is classified (and accepted) as ECEF by
`validate_observer_position`, yet the skyplot.py call site (threshold
`6.3e7`) takes the geographic branch for it, converts its first two
components to radians, and calls the geographic transform. -/
theorem c3_threshold_counterexample :
    validate_observer_position ((4000000 : ℚ), 4000000, 4000000) =
      .ok ((4000000 : ℚ), 4000000, 4000000) ∧
    ¬ normSq ((4000000 : ℚ), 4000000, 4000000) <
        GEO_ECEF_THRESHOLD * GEO_ECEF_THRESHOLD ∧
    (skyplotObserverPrep ((4000000 : ℚ), 4000000, 4000000)).2 = true ∧
    (skyplotObserverPrep ((4000000 : ℚ), 4000000, 4000000)).1 ≠
      ((4000000 : ℚ), 4000000, 4000000) := by
  have hnorm : ¬ normSq ((4000000 : ℚ), 4000000, 4000000) <
      GEO_ECEF_THRESHOLD * GEO_ECEF_THRESHOLD := by
    norm_num [normSq, GEO_ECEF_THRESHOLD]
  have hconv : normSq ((4000000 : ℚ), 4000000, 4000000) <
      SKYPLOT_CONVERT_THRESHOLD * SKYPLOT_CONVERT_THRESHOLD := by
    norm_num [normSq, SKYPLOT_CONVERT_THRESHOLD]
  refine ⟨?_, hnorm, ?_, ?_⟩
  · unfold validate_observer_position
    rw [if_neg hnorm, if_pos (by norm_num [ECEF_COMPONENT_LIMIT])]
  · simp [skyplotObserverPrep, hconv]
  · have heq : (skyplotObserverPrep ((4000000 : ℚ), 4000000, 4000000)).1 =
        (deg2rad 4000000, deg2rad 4000000, (4000000 : ℚ)) := by
      simp [skyplotObserverPrep, hconv]
    rw [heq]
    intro h1
    rw [Prod.ext_iff] at h1
    exact absurd h1.1 (by norm_num [deg2rad, PI_DOUBLE])

/-- C3 amended: at the skyplot.py conversion point the classification
threshold is `6.3e7`, one order of magnitude larger than the validation
threshold `6.3e6`: every vector with norm below `6.3e7` has its first two
components converted from degrees to radians (third component unchanged)
and is handed to the geographic transform, and only vectors with norm at
least `6.3e7` are passed through unchanged with no conversion. -/
theorem c3_conversion_thresholds (p : ℚ × ℚ × ℚ) :
    (normSq p < SKYPLOT_CONVERT_THRESHOLD * SKYPLOT_CONVERT_THRESHOLD →
      skyplotObserverPrep p = ((deg2rad p.1, deg2rad p.2.1, p.2.2), true)) ∧
    (¬ normSq p < SKYPLOT_CONVERT_THRESHOLD * SKYPLOT_CONVERT_THRESHOLD →
      skyplotObserverPrep p = (p, false)) := by
  constructor <;> intro h <;> simp [skyplotObserverPrep, h]

/-- C3 amended witness: the default observer `(24, 38, 500)` is converted
(geographic branch), while `(7e7, 0, 0)` (norm `7e7 ≥ 6.3e7`) passes
through unchanged. -/
theorem c3_conversion_thresholds_witness :
    skyplotObserverPrep ((24 : ℚ), 38, 500) =
      ((deg2rad 24, deg2rad 38, 500), true) ∧
    skyplotObserverPrep ((70000000 : ℚ), 0, 0) = (((70000000 : ℚ), 0, 0), false) :=
  ⟨(c3_conversion_thresholds ((24 : ℚ), 38, 500)).1
      (by norm_num [normSq, SKYPLOT_CONVERT_THRESHOLD]),
   (c3_conversion_thresholds ((70000000 : ℚ), 0, 0)).2
      (by norm_num [normSq, SKYPLOT_CONVERT_THRESHOLD])⟩

/-- C4: for every input series and every positive stride `n`, the decimator
returns exactly the elements at original indices `0, n, 2n, …` in their
original order (position `k` of the output is the input element at index
`k * n`, both sides empty past the end — hence no interpolation and nothing
past the last index), and the output length is `⌈len / n⌉`. -/
theorem c4_decimator_subsampling {α : Type} (n : ℕ) (hn : 0 < n)
    (l : List α) :
    (decimate n l).length = (l.length + n - 1) / n ∧
    ∀ k : ℕ, (decimate n l)[k]? = l[k * n]? := by
  constructor
  · rw [decimate_length n hn]
    congr 1
    omega
  · exact decimate_getElem? n hn l

set_option maxRecDepth 8000 in
/-- C4 witness: stride 50 on a 201-element series gives the 5 elements at
indices 0, 50, 100, 150, 200; stride 10 on a 25-element series gives the 3
elements at indices 0, 10, 20. -/
theorem c4_decimator_subsampling_witness :
    (0 : ℕ) < 50 ∧
    (decimate 50 (List.range 201)).length = (201 + 50 - 1) / 50 ∧
    (decimate 50 (List.range 201))[2]? = (List.range 201)[2 * 50]? ∧
    decimate 50 (List.range 201) = [0, 50, 100, 150, 200] ∧
    decimate 10 (List.range 25) = [0, 10, 20] :=
  ⟨by decide,
   (c4_decimator_subsampling 50 (by decide) (List.range 201)).1,
   (c4_decimator_subsampling 50 (by decide) (List.range 201)).2 2,
   by decide, by decide⟩

/-- C5: for coordinate and label series of equal length and any positive
stride, decimation preserves index alignment: the two decimated sequences
have equal length, and for each output position `k` both kept elements come
from the same original index `k * n`. -/
theorem c5_decimator_alignment {α β : Type} (n : ℕ) (hn : 0 < n)
    (coords : List α) (labels : List β)
    (hlen : coords.length = labels.length) :
    (decimate n coords).length = (decimate n labels).length ∧
    ∀ k : ℕ, (decimate n coords)[k]? = coords[k * n]? ∧
      (decimate n labels)[k]? = labels[k * n]? := by
  refine ⟨?_, fun k =>
    ⟨decimate_getElem? n hn coords k, decimate_getElem? n hn labels k⟩⟩
  rw [decimate_length n hn, decimate_length n hn, hlen]

/-- C5 witness: a concrete aligned pair at stride 2. -/
theorem c5_decimator_alignment_witness :
    (decimate 2 [10, 20, 30]).length = (decimate 2 ['a', 'b', 'c']).length ∧
    (decimate 2 [10, 20, 30])[1]? = [10, 20, 30][1 * 2]? ∧
    (decimate 2 ['a', 'b', 'c'])[1]? = ['a', 'b', 'c'][1 * 2]? :=
  ⟨(c5_decimator_alignment 2 (by decide) [10, 20, 30] ['a', 'b', 'c']
      (by decide)).1,
   ((c5_decimator_alignment 2 (by decide) [10, 20, 30] ['a', 'b', 'c']
      (by decide)).2 1).1,
   ((c5_decimator_alignment 2 (by decide) [10, 20, 30] ['a', 'b', 'c']
      (by decide)).2 1).2⟩

theorem digitVal10_zero {c : Char} (h : isDig c = true)
    (h0 : digitVal10 c = 0) : c = '0' := by
  rcases isDig_cases h with h | h | h | h | h | h | h | h | h | h <;> subst h <;>
    first
      | rfl
      | exact absurd h0 (by decide)

theorem parseSvToken_cons (c : Char) (rest : List Char) :
    parseSvToken (c :: rest) = (pyInt rest).map (fun n => (c, n)) := rfl

/-- C6 counterexample: the claim says a token whose remainder does not parse
as a nonnegative integer must fail with `InvalidSatelliteNumber`, but the
code accepts `"G-5"`: Python `int("-5")` succeeds with the negative value
`-5`, so validation returns the token. -/
theorem c6_negative_id_counterexample :
    validate_sv_id ['G', '-', '5'] = .ok ['G', '-', '5'] ∧
    pyInt ['-', '5'] = some (-5) ∧ (-5 : ℤ) < 0 :=
  ⟨rfl, rfl, by decide⟩

/-- C6 amended: validation fails with `InvalidConstellation` exactly when
the first character is not `G`, `R` or `E`; for tokens passing that check it
fails with `InvalidSatelliteNumber` exactly when the remainder does not
parse under Python `int` (which accepts surrounding whitespace, underscore
digit separators and an optional sign — so possibly negative values);
otherwise it succeeds, returning the token.  The two error kinds are
distinct constructors. -/
theorem c6_sv_id_validation (cs : List Char) :
    (validate_sv_id cs = .error .invalidConstellation ↔ startsGRE cs = false) ∧
    (startsGRE cs = true →
      (validate_sv_id cs = .error .invalidSatelliteNumber ↔
        pyInt (cs.drop 1) = none)) ∧
    (validate_sv_id cs = .ok cs ↔
      (startsGRE cs = true ∧ pyInt (cs.drop 1) ≠ none)) := by
  unfold validate_sv_id
  by_cases hg : startsGRE cs = true
  · rw [if_pos hg]
    cases hp : pyInt (cs.drop 1) with
    | none => simp [hg, hp]
    | some n => simp [hg, hp]
  · rw [if_neg hg]
    simp only [Bool.not_eq_true] at hg
    simp [hg]

/-- C6 amended witness: `"X07"` fails with `InvalidConstellation`, `"Ga"`
fails with `InvalidSatelliteNumber`, `"G07"` succeeds. -/
theorem c6_sv_id_validation_witness :
    validate_sv_id ['X', '0', '7'] = .error .invalidConstellation ∧
    validate_sv_id ['G', 'a'] = .error .invalidSatelliteNumber ∧
    validate_sv_id ['G', '0', '7'] = .ok ['G', '0', '7'] :=
  ⟨(c6_sv_id_validation ['X', '0', '7']).1.mpr (by decide),
   ((c6_sv_id_validation ['G', 'a']).2.1 (by decide)).mpr (by decide),
   (c6_sv_id_validation ['G', '0', '7']).2.2.mpr ⟨by decide, by decide⟩⟩

theorem pyFmt02d_valDigits (d0 : Char) (tl : List Char)
    (hds : ∀ d ∈ d0 :: tl, isDig d = true)
    (hpad : (d0 :: tl).length = 2 ∨
      (2 < (d0 :: tl).length ∧ (d0 :: tl).head? ≠ some '0')) :
    pyFmt02d (valDigits (d0 :: tl)) = d0 :: tl := by
  by_cases h0 : d0 = '0'
  · have hlen2 : (d0 :: tl).length = 2 := by
      rcases hpad with h | ⟨_, hh⟩
      · exact h
      · exact absurd (by rw [List.head?_cons, h0]) hh
    have htl : tl.length = 1 := by simpa using hlen2
    obtain ⟨d1, rfl⟩ : ∃ d1, tl = [d1] := by
      match tl, htl with
      | [d1], _ => exact ⟨d1, rfl⟩
    have hd1 : isDig d1 = true := hds d1 (by simp)
    subst h0
    have hv : valDigits ['0', d1] = digitVal10 d1 := by
      simp [valDigits, digitStep, List.foldl, digitVal10]
    rw [hv]
    by_cases hz : digitVal10 d1 = 0
    · have hd1z : d1 = '0' := digitVal10_zero hd1 hz
      subst hd1z
      rw [hz]
      simp [pyFmt02d, natDec, List.replicate]
    · unfold pyFmt02d natDec
      rw [Nat.digits_of_lt 10 _ hz (digitVal10_lt hd1)]
      simp [digitChar10_digitVal10 hd1]
  · have hnd := natDec_valDigits d0 tl hds h0
    unfold pyFmt02d
    rw [hnd]
    have hlen : 2 - (d0 :: tl).length = 0 := by
      rcases hpad with h | ⟨h, _⟩ <;> omega
    rw [hlen]
    simp

/-- C7: every token `[GRE][0-9]+` whose digit part is already the
two-digit zero-padded rendering of its value (exactly two digits, or more
with no leading zero) passes validation, and formatting the parsed pair
`(sv_id[0], int(sv_id[1:]))` back through `f'{number:02d}'` returns the
original token. -/
theorem c7_sv_id_roundtrip (c : Char) (ds : List Char)
    (hc : c = 'G' ∨ c = 'R' ∨ c = 'E')
    (hds : ∀ d ∈ ds, isDig d = true)
    (hpad : ds.length = 2 ∨ (2 < ds.length ∧ ds.head? ≠ some '0')) :
    validate_sv_id (c :: ds) = .ok (c :: ds) ∧
    (parseSvToken (c :: ds)).map formatSv = some (c :: ds) := by
  obtain ⟨d0, tl, rfl⟩ : ∃ d0 tl, ds = d0 :: tl := by
    match ds, hpad with
    | d0 :: tl, _ => exact ⟨d0, tl, rfl⟩
  have hstart : startsGRE (c :: d0 :: tl) = true := by
    rcases hc with h | h | h <;> subst h <;> rfl
  have hpyInt := pyInt_all_digits d0 tl hds
  have hdrop : (c :: d0 :: tl).drop 1 = d0 :: tl := rfl
  constructor
  · unfold validate_sv_id
    rw [if_pos hstart, hdrop, hpyInt]
  · rw [parseSvToken_cons, hpyInt]
    show some (formatSv (c, ((valDigits (d0 :: tl) : ℕ) : ℤ))) =
      some (c :: d0 :: tl)
    unfold formatSv pyFmt02dInt
    rw [if_neg (by exact not_lt.mpr (Int.natCast_nonneg _)), Int.toNat_natCast,
      pyFmt02d_valDigits d0 tl hds hpad]

/-- C7 witness: the token `"G07"` validates and round-trips through
parse-then-format. -/
theorem c7_sv_id_roundtrip_witness :
    validate_sv_id ['G', '0', '7'] = .ok ['G', '0', '7'] ∧
    (parseSvToken ['G', '0', '7']).map formatSv = some ['G', '0', '7'] :=
  c7_sv_id_roundtrip 'G' ['0', '7'] (by decide) (by decide) (by decide)

theorem obsPrepEvents_no_render (observer : ℚ × ℚ × ℚ) :
    Ev.seriesT ∉ obsPrepEvents observer ∧ Ev.render ∉ obsPrepEvents observer := by
  unfold obsPrepEvents
  split <;> simp

/-- C8 counterexample: the claim quantifies over every run of the program,
but plot_groundtrack.py `main` has no zero-sample check: with a loadable
file and a satellite reported with zero samples it does not exit with
`-98` — it attempts the series transform and the render call and finishes
with exit code 0. -/
theorem c8_plot_groundtrack_counterexample :
    envMissingSat.loadFailure = false ∧
    envMissingSat.rows ('G', 7) = 0 ∧
    plotGroundtrackMain envMissingSat (some ['G', '0', '7']) =
      some (0, [Ev.seriesT, Ev.render]) ∧
    (0 : ℤ) ≠ -98 ∧
    Ev.seriesT ∈ [Ev.seriesT, Ev.render] ∧ Ev.render ∈ [Ev.seriesT, Ev.render] :=
  ⟨rfl, rfl, rfl, by decide, by decide, by decide⟩

/-- C8 amended: in skyplot.py, groundtrack.py and bin/groundtrack.py, a run
whose orbit file loads but whose resolved satellite has zero samples exits
with code `-98` before the series coordinate transform, with no render
call (skyplot.py's observer-position transform runs earlier, before the
file is even loaded, and is the only event that can precede the check);
plot_groundtrack.py performs no zero-sample check and instead proceeds to
the series transform and the render call, exiting 0. -/
theorem c8_zero_sample_handling (env : OrbitEnv) (observer : ℚ × ℚ × ℚ)
    (svId : Option (List Char)) (key : Char × ℤ)
    (hload : env.loadFailure = false)
    (hres : resolveSv svId env.listSat = some key)
    (hzero : env.rows key = 0) :
    skyplotMain env observer svId = some (-98, obsPrepEvents observer) ∧
    groundtrackMain env svId = some (-98, []) ∧
    binGroundtrackMain env svId = some (-98, []) ∧
    Ev.seriesT ∉ obsPrepEvents observer ∧
    Ev.render ∉ obsPrepEvents observer ∧
    plotGroundtrackMain env svId = some (0, [Ev.seriesT, Ev.render]) :=
  ⟨by simp [skyplotMain, hload, hres, hzero],
   by simp [groundtrackMain, hload, hres, hzero],
   by simp [binGroundtrackMain, hload, hres, hzero],
   (obsPrepEvents_no_render observer).1,
   (obsPrepEvents_no_render observer).2,
   by simp [plotGroundtrackMain, hload, hres]⟩

/-- C8 witness: with a loadable file listing `G01` but zero samples for the
requested `G07`, skyplot.py and groundtrack.py exit `-98` without series
transform or render. -/
theorem c8_zero_sample_handling_witness :
    skyplotMain envMissingSat ((24 : ℚ), 38, 500) (some ['G', '0', '7']) =
      some (-98, obsPrepEvents ((24 : ℚ), 38, 500)) ∧
    groundtrackMain envMissingSat (some ['G', '0', '7']) = some (-98, []) ∧
    Ev.render ∉ obsPrepEvents ((24 : ℚ), 38, 500) :=
  ⟨(c8_zero_sample_handling envMissingSat ((24 : ℚ), 38, 500)
      (some ['G', '0', '7']) ('G', 7) rfl rfl rfl).1,
   (c8_zero_sample_handling envMissingSat ((24 : ℚ), 38, 500)
      (some ['G', '0', '7']) ('G', 7) rfl rfl rfl).2.1,
   (c8_zero_sample_handling envMissingSat ((24 : ℚ), 38, 500)
      (some ['G', '0', '7']) ('G', 7) rfl rfl rfl).2.2.2.2.1⟩

/-- C9 counterexample: the claim quantifies over every run of the program,
but on load failure plot_groundtrack.py `main` calls `sys.exit(-1)`
(line 156), not `-99`. -/
theorem c9_plot_groundtrack_counterexample :
    envLoadFail.loadFailure = true ∧
    plotGroundtrackMain envLoadFail none = some (-1, []) ∧
    (-1 : ℤ) ≠ -99 :=
  ⟨rfl, rfl, by decide⟩

/-- C9 amended: when loading the orbit file fails, skyplot.py,
groundtrack.py and bin/groundtrack.py exit with code `-99` and
plot_groundtrack.py exits with code `-1`; in every case no series
transform and no render call is attempted (in skyplot.py only the
observer-preparation step, which precedes the load, can have run). -/
theorem c9_load_failure_exit_codes (env : OrbitEnv) (observer : ℚ × ℚ × ℚ)
    (svId : Option (List Char)) (hload : env.loadFailure = true) :
    skyplotMain env observer svId = some (-99, obsPrepEvents observer) ∧
    groundtrackMain env svId = some (-99, []) ∧
    binGroundtrackMain env svId = some (-99, []) ∧
    plotGroundtrackMain env svId = some (-1, []) ∧
    Ev.seriesT ∉ obsPrepEvents observer ∧
    Ev.render ∉ obsPrepEvents observer :=
  ⟨by simp [skyplotMain, hload],
   by simp [groundtrackMain, hload],
   by simp [binGroundtrackMain, hload],
   by simp [plotGroundtrackMain, hload],
   (obsPrepEvents_no_render observer).1,
   (obsPrepEvents_no_render observer).2⟩

/-- C9 witness: with a failing load, groundtrack.py and skyplot.py exit
`-99` with no render. -/
theorem c9_load_failure_exit_codes_witness :
    groundtrackMain envLoadFail none = some (-99, []) ∧
    skyplotMain envLoadFail ((24 : ℚ), 38, 500) none =
      some (-99, obsPrepEvents ((24 : ℚ), 38, 500)) :=
  ⟨(c9_load_failure_exit_codes envLoadFail ((24 : ℚ), 38, 500) none rfl).2.1,
   (c9_load_failure_exit_codes envLoadFail ((24 : ℚ), 38, 500) none rfl).1⟩

/-- C10: the pygmt render functions plot the full-resolution series
(`fig.plot` receives the undecimated coordinates, recorded before the
decimation step executes) and then overwrite elements 0 and 1 of the
caller's shared coordinate list with the decimated subsequences (stride 10
for the sky plot, 50 for the ground track), also handing the decimated
labels and coordinates to `fig.text`; whenever the series has more than one
element the caller is left with strictly fewer elements than it passed in,
so it no longer holds the full-resolution series. -/
theorem c10_render_mutates_series (azEl : List ℚ × List ℚ)
    (labels : List (List Char)) (geo : List ℚ × List ℚ)
    (labels2 : List (List Char)) :
    ((sky_plot_pygmt azEl labels).plotX = azEl.1 ∧
     (sky_plot_pygmt azEl labels).plotY = azEl.2 ∧
     (sky_plot_pygmt azEl labels).finalCoords =
       (decimate 10 azEl.1, decimate 10 azEl.2) ∧
     (sky_plot_pygmt azEl labels).textX = decimate 10 azEl.1 ∧
     (sky_plot_pygmt azEl labels).textY = decimate 10 azEl.2 ∧
     (sky_plot_pygmt azEl labels).textLabels = decimate 10 labels ∧
     (1 < azEl.1.length →
       (sky_plot_pygmt azEl labels).finalCoords.1.length < azEl.1.length)) ∧
    ((plot_track_pygmt geo labels2).plotX = geo.1 ∧
     (plot_track_pygmt geo labels2).plotY = geo.2 ∧
     (plot_track_pygmt geo labels2).finalCoords =
       (decimate 50 geo.1, decimate 50 geo.2) ∧
     (plot_track_pygmt geo labels2).textX = decimate 50 geo.1 ∧
     (plot_track_pygmt geo labels2).textY = decimate 50 geo.2 ∧
     (plot_track_pygmt geo labels2).textLabels = decimate 50 labels2 ∧
     (1 < geo.1.length →
       (plot_track_pygmt geo labels2).finalCoords.1.length < geo.1.length)) := by
  have hdec : ∀ (n : ℕ), 1 < n → ∀ l : List ℚ, 1 < l.length →
      (decimate n l).length < l.length := by
    intro n hn l hl
    have hn1 : 0 < n := by omega
    rw [decimate_length n hn1, Nat.div_lt_iff_lt_mul hn1]
    have h0 : 0 < n - 1 := by omega
    have h1 : 1 * (n - 1) < l.length * (n - 1) :=
      (Nat.mul_lt_mul_right h0).mpr hl
    have h2 : l.length * n = l.length + l.length * (n - 1) := by
      have hn2 : n = 1 + (n - 1) := by omega
      conv_lhs => rw [hn2]
      rw [Nat.mul_add, Nat.mul_one]
    rw [one_mul] at h1
    linarith
  exact ⟨⟨rfl, rfl, rfl, rfl, rfl, rfl, fun h => hdec 10 (by decide) _ h⟩,
    ⟨rfl, rfl, rfl, rfl, rfl, rfl, fun h => hdec 50 (by decide) _ h⟩⟩

/-- C10 witness: a two-sample series is plotted in full, then the caller's
coordinate pair is left holding only the decimated single sample. -/
theorem c10_render_mutates_series_witness :
    (sky_plot_pygmt ([1, 2], [3, 4]) [['a'], ['b']]).plotX = [1, 2] ∧
    (sky_plot_pygmt ([1, 2], [3, 4]) [['a'], ['b']]).finalCoords.1.length <
      ([1, 2] : List ℚ).length ∧
    (plot_track_pygmt ([1, 2], [3, 4]) [['a'], ['b']]).finalCoords.1.length <
      ([1, 2] : List ℚ).length :=
  ⟨(c10_render_mutates_series ([1, 2], [3, 4]) [['a'], ['b']]
      ([1, 2], [3, 4]) [['a'], ['b']]).1.1,
   (c10_render_mutates_series ([1, 2], [3, 4]) [['a'], ['b']]
      ([1, 2], [3, 4]) [['a'], ['b']]).1.2.2.2.2.2.2 (by decide),
   (c10_render_mutates_series ([1, 2], [3, 4]) [['a'], ['b']]
      ([1, 2], [3, 4]) [['a'], ['b']]).2.2.2.2.2.2.2 (by decide)⟩

end GnssTools
